import Mathlib

/-!
Verification of the Birth Chart API (single-file FastAPI service over Swiss
Ephemeris).  Python floats are modelled as exact rationals (ℚ); the external
astronomical library, geocoding providers and timezone index are modelled as
explicit oracle parameters, since the service treats them as black boxes.
Python truthiness, `int()` truncation, half-to-even `round()` and `%` on
non-negative moduli are embedded explicitly where the code relies on them.
-/

namespace BirthChartAPI

/-- The fixed 12-member zodiac sign enumeration (`SIGNS` in `app.py`). -/
def SIGNS : List String :=
  ["Aries", "Taurus", "Gemini", "Cancer", "Leo", "Virgo",
   "Libra", "Scorpio", "Sagittarius", "Capricorn", "Aquarius", "Pisces"]

/-- Python `normalize_deg(deg) = deg % 360.0`; `%` with positive modulus is
`x - 360 * floor (x / 360)`. -/
def normalize_deg (deg : ℚ) : ℚ := deg - 360 * ⌊deg / 360⌋

/-- Python `int(x)`: truncation toward zero. -/
def pyInt (x : ℚ) : ℤ := if 0 ≤ x then ⌊x⌋ else -⌊-x⌋

/-- Python `round(x)`: round half to even. -/
def pyRound (x : ℚ) : ℤ :=
  let f := ⌊x⌋
  let r := x - f
  if r < 1/2 then f
  else if 1/2 < r then f + 1
  else if f % 2 = 0 then f else f + 1

/-- Model of `zodiac_sign_and_pos(ecl_lon_deg)`: normalize the longitude, index the
sign list with `int(lon // 30)` and return the position within the sign. -/
def zodiac_sign_and_pos (ecl_lon_deg : ℚ) : String × ℚ :=
  let lon := normalize_deg ecl_lon_deg
  let signIndex : ℤ := ⌊lon / 30⌋
  (SIGNS.getD signIndex.toNat "", lon - signIndex * 30)

/-- Model of `round_to_arcminute(pos_in_sign)`: `(deg, min)` rounded to the nearest
arcminute with rollover handling and the sign-boundary clamp at `deg == 30`. -/
def round_to_arcminute (pos_in_sign : ℚ) : ℤ × ℤ :=
  let d := pyInt pos_in_sign
  let m := pyRound ((pos_in_sign - d) * 60)
  if m = 60 then
    if d + 1 = 30 then (29, 59) else (d + 1, 0)
  else (d, m)

section NormalizeLemmas

lemma normalize_deg_eq_fract (x : ℚ) : normalize_deg x = 360 * Int.fract (x / 360) := by
  unfold normalize_deg Int.fract
  field_simp

lemma normalize_deg_nonneg (x : ℚ) : 0 ≤ normalize_deg x := by
  rw [normalize_deg_eq_fract]
  have := Int.fract_nonneg (x / 360)
  linarith

lemma normalize_deg_lt (x : ℚ) : normalize_deg x < 360 := by
  rw [normalize_deg_eq_fract]
  have := Int.fract_lt_one (x / 360)
  linarith

lemma normalize_deg_add_360 (x : ℚ) : normalize_deg (x + 360) = normalize_deg x := by
  unfold normalize_deg
  have h : (x + 360) / 360 = x / 360 + 1 := by ring
  rw [h, Int.floor_add_one]
  push_cast
  ring

lemma normalize_deg_of_mem (x : ℚ) (h0 : 0 ≤ x) (h1 : x < 360) : normalize_deg x = x := by
  unfold normalize_deg
  have hfl : ⌊x / 360⌋ = 0 := by
    rw [Int.floor_eq_zero_iff]
    constructor
    · positivity
    · rw [div_lt_one (by norm_num : (0:ℚ) < 360)]
      simpa using h1
  rw [hfl]
  push_cast
  ring

lemma sign_index_lt (x : ℚ) : (⌊normalize_deg x / 30⌋).toNat < 12 := by
  have h0 := normalize_deg_nonneg x
  have h1 := normalize_deg_lt x
  have hlt : ⌊normalize_deg x / 30⌋ < 12 := by
    rw [Int.floor_lt]
    rw [div_lt_iff₀ (by norm_num : (0:ℚ) < 30)]
    push_cast
    linarith
  omega

lemma signs_getD_mem : ∀ n, n < 12 → SIGNS.getD n "" ∈ SIGNS := by decide

lemma zodiac_sign_mem (x : ℚ) : (zodiac_sign_and_pos x).1 ∈ SIGNS :=
  signs_getD_mem _ (sign_index_lt x)

end NormalizeLemmas

section RoundingLemmas

lemma pyInt_of_nonneg (x : ℚ) (h : 0 ≤ x) : pyInt x = ⌊x⌋ := if_pos h

lemma pyRound_bounds (x : ℚ) : ⌊x⌋ ≤ pyRound x ∧ pyRound x ≤ ⌊x⌋ + 1 := by
  simp only [pyRound]
  split_ifs <;> omega

end RoundingLemmas

/-- Claim C1: for every `pos_in_sign` in `[0,30)`, `round_to_arcminute` returns
`(deg, min)` with `deg ∈ [0,29]`, `min ∈ [0,59]`, never `min = 60`; when the
rounded arcminute rolls to 60 the degree is incremented and the minute reset
to 0, and when the degree thereby reaches 30 the result is clamped to
`(29, 59)` instead of rolling into the next sign. -/
theorem round_to_arcminute_spec (pos : ℚ) (h0 : 0 ≤ pos) (h1 : pos < 30) :
    (0 ≤ (round_to_arcminute pos).1 ∧ (round_to_arcminute pos).1 ≤ 29 ∧
     0 ≤ (round_to_arcminute pos).2 ∧ (round_to_arcminute pos).2 ≤ 59) ∧
    (round_to_arcminute pos).2 ≠ 60 ∧
    (pyRound ((pos - pyInt pos) * 60) = 60 → pyInt pos + 1 ≠ 30 →
      round_to_arcminute pos = (pyInt pos + 1, 0)) ∧
    (pyRound ((pos - pyInt pos) * 60) = 60 → pyInt pos + 1 = 30 →
      round_to_arcminute pos = (29, 59)) := by
  have hd : pyInt pos = ⌊pos⌋ := pyInt_of_nonneg pos h0
  have hd0 : 0 ≤ ⌊pos⌋ := Int.floor_nonneg.mpr h0
  have hd29 : ⌊pos⌋ ≤ 29 := by
    have : ⌊pos⌋ < 30 := Int.floor_lt.mpr (by exact_mod_cast h1)
    omega
  have hfr0 : 0 ≤ pos - ⌊pos⌋ := by
    have := Int.floor_le pos
    linarith
  have hfr1 : pos - ⌊pos⌋ < 1 := by
    have := Int.lt_floor_add_one pos
    linarith
  have hx0 : 0 ≤ (pos - pyInt pos) * 60 := by
    rw [hd]; nlinarith
  have hx60 : (pos - pyInt pos) * 60 < 60 := by
    rw [hd]; nlinarith
  have hm0 : 0 ≤ ⌊(pos - pyInt pos) * 60⌋ := Int.floor_nonneg.mpr hx0
  have hm59 : ⌊(pos - pyInt pos) * 60⌋ ≤ 59 := by
    have : ⌊(pos - pyInt pos) * 60⌋ < 60 := Int.floor_lt.mpr (by exact_mod_cast hx60)
    omega
  have hmb := pyRound_bounds ((pos - pyInt pos) * 60)
  simp only [round_to_arcminute]
  split_ifs with hm60 hd30 <;>
    simp only [Prod.fst, Prod.snd] <;>
    refine ⟨⟨?_, ?_, ?_, ?_⟩, ?_, ?_, ?_⟩ <;>
    simp_all <;> omega

/-- Witness for C1 at the boundary example `pos_in_sign = 29.9999` from the
spec,
which rounds up to minute 60, rolls the degree to 30 and is clamped to
`(29, 59)`. -/
theorem round_to_arcminute_spec_witness :
    (0 : ℚ) ≤ 299999/10000 ∧ (299999/10000 : ℚ) < 30 ∧
    round_to_arcminute (299999/10000) = (29, 59) ∧
    ((0 ≤ (round_to_arcminute ((299999 : ℚ)/10000)).1 ∧
      (round_to_arcminute ((299999 : ℚ)/10000)).1 ≤ 29 ∧
      0 ≤ (round_to_arcminute ((299999 : ℚ)/10000)).2 ∧
      (round_to_arcminute ((299999 : ℚ)/10000)).2 ≤ 59) ∧
     (round_to_arcminute ((299999 : ℚ)/10000)).2 ≠ 60 ∧
     (pyRound ((299999/10000 - pyInt ((299999 : ℚ)/10000)) * 60) = 60 →
       pyInt ((299999 : ℚ)/10000) + 1 ≠ 30 →
       round_to_arcminute (299999/10000) = (pyInt ((299999 : ℚ)/10000) + 1, 0)) ∧
     (pyRound ((299999/10000 - pyInt ((299999 : ℚ)/10000)) * 60) = 60 →
       pyInt ((299999 : ℚ)/10000) + 1 = 30 →
       round_to_arcminute (299999/10000) = (29, 59))) :=
  ⟨by norm_num, by norm_num, by norm_num [round_to_arcminute, pyInt, pyRound],
   round_to_arcminute_spec (299999/10000) (by norm_num) (by norm_num)⟩

/-- Claim C5: for every longitude `L ∈ [0,360)`, `zodiac_sign_and_pos L`
returns the sign `SIGNS[⌊L/30⌋]` and the position-in-sign `L - 30*⌊L/30⌋`,
which lies in `[0,30)`. -/
theorem zodiac_sign_and_pos_spec (L : ℚ) (h0 : 0 ≤ L) (h1 : L < 360) :
    (zodiac_sign_and_pos L).1 = SIGNS.getD (⌊L / 30⌋).toNat "" ∧
    (zodiac_sign_and_pos L).2 = L - 30 * ⌊L / 30⌋ ∧
    0 ≤ (zodiac_sign_and_pos L).2 ∧ (zodiac_sign_and_pos L).2 < 30 := by
  have hnorm : normalize_deg L = L := normalize_deg_of_mem L h0 h1
  simp only [zodiac_sign_and_pos, hnorm]
  have hle := Int.floor_le (L / 30)
  have hlt := Int.lt_floor_add_one (L / 30)
  refine ⟨by simp, by ring, ?_, ?_⟩
  · nlinarith
  · nlinarith

/-- Witness for C5 at `L = 45`: the sign is `SIGNS[1] = "Taurus"` and the
position in sign is `15`. -/
theorem zodiac_sign_and_pos_spec_witness :
    (0 : ℚ) ≤ 45 ∧ (45 : ℚ) < 360 ∧
    (zodiac_sign_and_pos 45).1 = "Taurus" ∧ (zodiac_sign_and_pos 45).2 = 15 ∧
    ((zodiac_sign_and_pos 45).1 = SIGNS.getD (⌊(45 : ℚ) / 30⌋).toNat "" ∧
     (zodiac_sign_and_pos 45).2 = 45 - 30 * ⌊(45 : ℚ) / 30⌋ ∧
     0 ≤ (zodiac_sign_and_pos 45).2 ∧ (zodiac_sign_and_pos 45).2 < 30) :=
  ⟨by norm_num, by norm_num,
   by norm_num [zodiac_sign_and_pos, normalize_deg, SIGNS],
   by norm_num [zodiac_sign_and_pos, normalize_deg],
   zodiac_sign_and_pos_spec 45 (by norm_num) (by norm_num)⟩

/-- Claim C6: the degree normalization used by the formatter is invariant
under adding a
full circle: for every longitude `L`, `zodiac_sign_and_pos (L + 360)` equals
`zodiac_sign_and_pos L` componentwise. -/
theorem zodiac_sign_and_pos_add_360 (L : ℚ) :
    zodiac_sign_and_pos (L + 360) = zodiac_sign_and_pos L := by
  simp only [zodiac_sign_and_pos, normalize_deg_add_360]

/-! ### Ephemeris oracle and house placement -/

/-- Black-box interface to the Swiss Ephemeris calls made by the service;
the spec treats the astronomical library as an external collaborator. -/
structure SweOracle where
  /-- Call `swe.house_pos(armc, geolat, eps, [ecl_lon, 0.0], hsys)` under the
  fixed Placidus house system: the raw (continuous) house position. -/
  house_pos : ℚ → ℚ → ℚ → ℚ → ℚ
  /-- Call `swe.calc_ut(jd_ut, swe.ECL_NUT, FLAGS)[0][0]`: obliquity of the
  ecliptic at the given Julian Day. -/
  ecl_nut_obliquity : ℚ → ℚ
  /-- Call `swe.calc_ut(jd_ut, body, FLAGS)[0]` projected to `(res[0], res[3])`:
  ecliptic longitude and daily longitude speed of a body. -/
  calc_ut : ℚ → ℤ → ℚ × ℚ

/-- Locked setting `HOUSE_SYSTEM` (the Placidus house-system byte). -/
def HOUSE_SYSTEM : String := "P"

/-- Locked setting `FLAGS = swe.FLG_SWIEPH | swe.FLG_SPEED` (values 2 and 256). -/
def FLAGS : ℕ := 2 ||| 256

/-- Locked setting `NODE_BODY = swe.MEAN_NODE` (numeric value 10). -/
def NODE_BODY : ℤ := 10

/-- Obliquity selection in `house_for_longitude`: use `ascmc[9]` when the
angle set has more than 9 entries, otherwise compute it via a dedicated
`swe.calc_ut(jd_ut, swe.ECL_NUT, FLAGS)` call. -/
def house_obliquity (o : SweOracle) (jd_ut : ℚ) (ascmc : List ℚ) : ℚ :=
  if 9 < ascmc.length then ascmc.getD 9 0 else o.ecl_nut_obliquity jd_ut

/-- The raw continuous house position `hpos` computed by
`house_for_longitude`: `swe.house_pos(armc, lat, obliq, [ecl_lon, 0.0], HOUSE_SYSTEM)`
with `armc = ascmc[2]`. -/
def raw_house_pos (o : SweOracle) (jd_ut lat ecl_lon : ℚ) (ascmc : List ℚ) : ℚ :=
  o.house_pos (ascmc.getD 2 0) lat (house_obliquity o jd_ut ascmc) ecl_lon

/-- Model of `house_for_longitude(jd_ut, lat, lon, ecl_lon, houses, ascmc)`: floor the
raw house position and clamp into `[1,12]`.  The `lon` and `houses` arguments
are taken but unused, as in the source. -/
def house_for_longitude (o : SweOracle) (jd_ut lat lon ecl_lon : ℚ)
    (houses ascmc : List ℚ) : ℤ :=
  let hpos := raw_house_pos o jd_ut lat ecl_lon ascmc
  let h0 := ⌊hpos⌋
  let h1 := if h0 < 1 then 1 else h0
  if h1 > 12 then 12 else h1

/-- Claim C2: for every raw house-position value returned by the house-position
function (out-of-range values included), the house number computed by
`house_for_longitude` is the floor of the raw position clamped into `[1,12]`;
in particular the result always lies in `[1,12]`. -/
theorem house_for_longitude_spec (o : SweOracle) (jd_ut lat lon ecl_lon : ℚ)
    (houses ascmc : List ℚ) :
    house_for_longitude o jd_ut lat lon ecl_lon houses ascmc
      = max 1 (min 12 ⌊raw_house_pos o jd_ut lat ecl_lon ascmc⌋) ∧
    1 ≤ house_for_longitude o jd_ut lat lon ecl_lon houses ascmc ∧
    house_for_longitude o jd_ut lat lon ecl_lon houses ascmc ≤ 12 := by
  simp only [house_for_longitude]
  split_ifs <;> refine ⟨?_, ?_, ?_⟩ <;> omega

/-! ### Timezone resolution -/

/-- Python truthiness of an optional string (`if not tz_name`): `None` and the
empty string are both falsy. -/
def truthyStr (o : Option String) : Bool :=
  match o with
  | none => false
  | some s => !s.isEmpty

/-- The `fastapi.HTTPException(status_code, detail)` value raised by the service. -/
structure HTTPException where
  status_code : ℕ
  detail : String
deriving DecidableEq

/-- Model of `resolve_timezone_name(lat, lon)` with the two lookup strategies
abstracted: `exact` is `tf.timezone_at(...)` and `closest` is
`tf.closest_timezone_at(...)`; both return an optional zone name. -/
def resolve_timezone_name (exact closest : Option String) :
    Except HTTPException String :=
  let tz1 := exact
  let tz2 := if truthyStr tz1 then tz1 else closest
  if truthyStr tz2 then Except.ok (tz2.getD "")
  else Except.error ⟨422, "Could not resolve timezone for this location."⟩

/-- Claim C7: `resolve_timezone_name` returns the exact-lookup name when that
strategy yields one, otherwise the closest-match name when that yields one,
and fails with HTTP 422 exactly when both strategies yield nothing. -/
theorem resolve_timezone_name_spec (exact closest : Option String) :
    (∀ s, exact = some s → s ≠ "" →
      resolve_timezone_name exact closest = Except.ok s) ∧
    (truthyStr exact = false → ∀ s, closest = some s → s ≠ "" →
      resolve_timezone_name exact closest = Except.ok s) ∧
    (truthyStr exact = false → truthyStr closest = false →
      resolve_timezone_name exact closest =
        Except.error ⟨422, "Could not resolve timezone for this location."⟩) := by
  have hne : ∀ s : String, s ≠ "" → s.isEmpty = false := by
    intro s hs
    cases h : s.isEmpty
    · rfl
    · exact absurd ((String.isEmpty_iff s).mp h) hs
  refine ⟨?_, ?_, ?_⟩
  · rintro s rfl hs
    have ht : truthyStr (some s) = true := by
      simp [truthyStr, hne s hs]
    simp [resolve_timezone_name, ht]
  · rintro hex s rfl hs
    have ht : truthyStr (some s) = true := by
      simp [truthyStr, hne s hs]
    simp [resolve_timezone_name, hex, ht]
  · intro hex hcl
    simp [resolve_timezone_name, hex, hcl]

/-- Witness for C7: an exact-lookup hit is returned as-is. -/
theorem resolve_timezone_name_spec_witness :
    resolve_timezone_name (some "Europe/London") none = Except.ok "Europe/London" :=
  (resolve_timezone_name_spec (some "Europe/London") none).1 "Europe/London" rfl
    (by decide)

/-! ### Geocoding -/

/-- One entry of the `results` array of the fallback provider. -/
structure FallbackHit where
  latitude : ℚ
  longitude : ℚ
deriving DecidableEq

/-- Decoded JSON body of the Open-Meteo fallback response;
`data.get("results")` may be absent or null, hence the `Option`. -/
structure OpenMeteoResponse where
  results : Option (List FallbackHit)
deriving DecidableEq

/-- Metadata attached to a geocoding result: the raw payload of the primary
provider, or the source-tagged best-hit record built in the fallback path. -/
inductive GeoMeta where
  | nominatim (raw : String)
  | openMeteo (best : FallbackHit)
deriving DecidableEq

/-- Query parameters of the fallback call to the Open-Meteo search endpoint;
`count = 1` requests exactly one best match. -/
def open_meteo_query (q : String) : List (String × String) :=
  [("name", q), ("count", "1"), ("language", "en"), ("format", "json")]

/-- A single-quote character, kept out of string literals. -/
def squote : String := String.mk [Char.ofNat 39]

/-- Detail message of the 404 raised when the fallback returns zero results:
a request to try the format City, State, Country (in single quotes). -/
def location_not_found_detail : String :=
  "Location not found. Try " ++ squote ++ "City, State, Country" ++ squote ++ "."

/-- Model of `geocode_location(query)` with the two providers abstracted: `primary` is
the `geolocator.geocode` call (`.error` = raised exception, `.ok none` = no
match, `.ok (some ...)` = a hit), and `fallback` is the Open-Meteo request
(`.error` = network/HTTP/parse failure, `.ok` = decoded JSON body). -/
def geocode_location (primary : Except String (Option (ℚ × ℚ × String)))
    (fallback : Except String OpenMeteoResponse) :
    Except HTTPException (ℚ × ℚ × GeoMeta) :=
  match primary with
  | Except.ok (some (lat, lon, raw)) => Except.ok (lat, lon, GeoMeta.nominatim raw)
  | _ =>
    match fallback with
    | Except.error e => Except.error ⟨502, "Geocoding error: " ++ e⟩
    | Except.ok data =>
      match data.results.getD [] with
      | [] => Except.error ⟨404, location_not_found_detail⟩
      | best :: _ =>
        Except.ok (best.latitude, best.longitude, GeoMeta.openMeteo best)

/-- Claim C3: the geocoder swallows any primary-provider failure (a raised
exception behaves exactly like a no-match), the fallback is called with
`count = 1` (exactly one best match), zero fallback results yield HTTP 404
with the "City, State, Country" guidance, and a fallback error yields
HTTP 502. -/
theorem geocode_location_spec (e q err : String)
    (fb : Except String OpenMeteoResponse) (resp : OpenMeteoResponse)
    (primary : Except String (Option (ℚ × ℚ × String))) :
    geocode_location (Except.error e) fb = geocode_location (Except.ok none) fb ∧
    ("count", "1") ∈ open_meteo_query q ∧
    ((∀ loc, primary ≠ Except.ok (some loc)) → resp.results.getD [] = [] →
      ∃ pre post, geocode_location primary (Except.ok resp) =
        Except.error ⟨404, pre ++ "City, State, Country" ++ post⟩) ∧
    ((∀ loc, primary ≠ Except.ok (some loc)) →
      geocode_location primary (Except.error err) =
        Except.error ⟨502, "Geocoding error: " ++ err⟩) := by
  have hdetail : location_not_found_detail =
      ("Location not found. Try " ++ squote) ++ "City, State, Country" ++
        (squote ++ ".") := by
    simp [location_not_found_detail, String.append_assoc]
  refine ⟨rfl, by simp [open_meteo_query], ?_, ?_⟩
  · intro hne hres
    refine ⟨"Location not found. Try " ++ squote, squote ++ ".", ?_⟩
    match primary with
    | Except.error e' => simp [geocode_location, hres, hdetail.symm]
    | Except.ok none => simp [geocode_location, hres, hdetail.symm]
    | Except.ok (some loc) => exact (hne loc rfl).elim
  · intro hne
    match primary with
    | Except.error e' => rfl
    | Except.ok none => rfl
    | Except.ok (some loc) => exact (hne loc rfl).elim

/-- Witness for C3: with the primary provider yielding no match and the
fallback returning an empty results array, geocoding fails with 404 and the
guidance message. -/
theorem geocode_location_spec_witness :
    ∃ pre post, geocode_location (Except.ok none) (Except.ok ⟨some []⟩) =
      Except.error ⟨404, pre ++ "City, State, Country" ++ post⟩ :=
  (geocode_location_spec "" "Huntington, WV, USA" "err" (Except.ok ⟨some []⟩)
      ⟨some []⟩ (Except.ok none)).2.2.1 (by simp) rfl

/-! ### Startup configuration of the ephemeris data path -/

/-- Python `os.path.join(a, b)` for an absolute, non-slash-terminated directory `a`
and a relative component `b` — the only shape the module uses
(`a = os.path.dirname(os.path.abspath(__file__))`). -/
def os_path_join (a b : String) : String := a ++ "/" ++ b

/-- Model of `EPHE_PATH = os.path.join(BASE_DIR, "ephe")`; `BASE_DIR`, the directory
containing `app.py`, is a parameter of the model. -/
def EPHE_PATH (base_dir : String) : String := os_path_join base_dir "ephe"

/-- An observable module-initialization effect of `app.py`: a
`swe.set_ephe_path(...)` call or a diagnostic `print(...)` line. -/
inductive StartupEvent where
  | setEphePath (p : String)
  | logLine (s : String)
deriving DecidableEq

/-- The ordered module-initialization effects of `app.py` touching the
ephemeris configuration and the startup log: `swe.set_ephe_path(EPHE_PATH)`
(line 16), the three diagnostic prints (lines 18-20), then the second
`swe.set_ephe_path("./ephe")` from the locked-settings block (line 30).
`ephe_exists` and `seas_exists` are the results of the two
`os.path.exists` checks. -/
def startup_events (base_dir : String) (ephe_exists seas_exists : Bool) :
    List StartupEvent :=
  [StartupEvent.setEphePath (EPHE_PATH base_dir),
   StartupEvent.logLine ("EPHE_PATH = " ++ EPHE_PATH base_dir),
   StartupEvent.logLine ("EPHE exists? " ++ (if ephe_exists then "True" else "False")),
   StartupEvent.logLine ("seas exists? " ++ (if seas_exists then "True" else "False")),
   StartupEvent.setEphePath "./ephe"]

/-- The ephemeris-path assignments of an effect trace, in order. -/
def set_ephe_path_calls (es : List StartupEvent) : List String :=
  es.filterMap fun ev =>
    match ev with
    | StartupEvent.setEphePath p => some p
    | _ => none

/-- Counterexample to C4: at startup the ephemeris data path is set twice, not
once, and the assignment in effect afterward is `"./ephe"` (relative to the
process working directory), which differs from the install-relative
`EPHE_PATH`. -/
theorem ephe_path_single_set_counterexample :
    (set_ephe_path_calls (startup_events "/srv/app" true true)).length = 2 ∧
    ¬ (set_ephe_path_calls (startup_events "/srv/app" true true)).length = 1 ∧
    (set_ephe_path_calls (startup_events "/srv/app" true true)).getLast? =
      some "./ephe" ∧
    "./ephe" ≠ EPHE_PATH "/srv/app" := by
  refine ⟨rfl, by decide, rfl, by decide⟩

/-- Claim C4 (amended): during module startup the ephemeris data path is set
exactly twice — first to the install-relative `EPHE_PATH`, then overridden by
the locked-settings block to `"./ephe"`, which is the configuration in effect
afterward — and the existence of the install-relative directory is only
logged, never fatal. -/
theorem ephe_path_startup_spec (base_dir : String)
    (ephe_exists seas_exists : Bool) :
    set_ephe_path_calls (startup_events base_dir ephe_exists seas_exists) =
      [EPHE_PATH base_dir, "./ephe"] ∧
    (set_ephe_path_calls (startup_events base_dir ephe_exists seas_exists)).getLast?
      = some "./ephe" ∧
    StartupEvent.logLine
        ("EPHE exists? " ++ (if ephe_exists then "True" else "False"))
      ∈ startup_events base_dir ephe_exists seas_exists := by
  refine ⟨rfl, rfl, ?_⟩
  simp [startup_events]

/-! ### Chart assembly: house cusps and planets -/

/-- One entry of the `house_cusps` array in the `/chart` response. -/
structure CuspOut where
  house : ℕ
  sign : String
  deg : ℤ
  min : ℤ
  lon_deg : ℚ
deriving DecidableEq

/-- The cusp entry built by one iteration of
`for i, cusp_lon in enumerate(cusp_list, start=1)`. -/
def cusp_entry (i : ℕ) (cusp_lon : ℚ) : CuspOut :=
  let lon := normalize_deg cusp_lon
  let sp := zodiac_sign_and_pos lon
  let dm := round_to_arcminute sp.2
  ⟨i, sp.1, dm.1, dm.2, lon⟩

/-- Step 8 of the handler: `cusp_list` is `houses` itself when it has 12
entries, otherwise `houses[1:]` (13-entry bindings leave index 0 unused). -/
def cusp_list (houses : List ℚ) : List ℚ :=
  if houses.length = 12 then houses else houses.drop 1

/-- The `cusps_out` list: formatted house cusps, enumerated from house number 1. -/
def cusps_out (houses : List ℚ) : List CuspOut :=
  (cusp_list houses).enum.map fun p => cusp_entry (p.1 + 1) p.2

/-- Claim C8: when the house-cusp computation returns either 12 cusps or 13
entries with index 0 unused, the `house_cusps` list of the response has
exactly 12 entries, their house numbers are 1 through 12 in increasing order,
and the sign of every entry is drawn from the fixed 12-member sign
enumeration. -/
theorem cusps_out_spec (houses : List ℚ)
    (h : houses.length = 12 ∨ houses.length = 13) :
    (cusps_out houses).length = 12 ∧
    (cusps_out houses).map CuspOut.house =
      [1, 2, 3, 4, 5, 6, 7, 8, 9, 10, 11, 12] ∧
    ∀ c ∈ cusps_out houses, c.sign ∈ SIGNS := by
  have hlen : (cusp_list houses).length = 12 := by
    unfold cusp_list
    rcases h with h | h
    · simp [h]
    · rw [if_neg (by omega)]
      simp [h]
  refine ⟨?_, ?_, ?_⟩
  · simp [cusps_out, List.enum_length, hlen]
  · have hmap : (cusps_out houses).map CuspOut.house =
        ((cusp_list houses).enum.map Prod.fst).map (fun n => n + 1) := by
      simp only [cusps_out, List.map_map]
      rfl
    rw [hmap, List.enum_map_fst, hlen]
    rfl
  · intro c hc
    rw [cusps_out] at hc
    obtain ⟨p, _, rfl⟩ := List.mem_map.mp hc
    exact zodiac_sign_mem _

/-- Witness for C8 on a concrete 12-entry cusp list. -/
theorem cusps_out_spec_witness :
    ((List.replicate 12 (0 : ℚ)).length = 12 ∨
      (List.replicate 12 (0 : ℚ)).length = 13) ∧
    ((cusps_out (List.replicate 12 (0 : ℚ))).length = 12 ∧
     (cusps_out (List.replicate 12 (0 : ℚ))).map CuspOut.house =
       [1, 2, 3, 4, 5, 6, 7, 8, 9, 10, 11, 12] ∧
     ∀ c ∈ cusps_out (List.replicate 12 (0 : ℚ)), c.sign ∈ SIGNS) :=
  ⟨Or.inl (by simp), cusps_out_spec (List.replicate 12 0) (Or.inl (by simp))⟩

/-- The fixed `PLANETS` mapping: body name → Swiss Ephemeris body id
(`swe.SUN = 0`, `swe.MOON = 1`, ..., `swe.PLUTO = 9`, `swe.MEAN_NODE = 10`). -/
def PLANETS : List (String × ℤ) :=
  [("Sun", 0), ("Moon", 1), ("Mercury", 2), ("Venus", 3), ("Mars", 4),
   ("Jupiter", 5), ("Saturn", 6), ("Uranus", 7), ("Neptune", 8), ("Pluto", 9),
   ("Node(M)", NODE_BODY)]

/-- One value of the `planets` mapping in the `/chart` response. -/
structure PlanetOut where
  sign : String
  deg : ℤ
  min : ℤ
  lon_deg : ℚ
  retrograde : Bool
  house : ℤ
deriving DecidableEq

/-- The per-body block of step 6 of the handler: normalize the longitude,
take the daily speed from `res[3]`, derive the retrograde flag from
`speed_lon < 0`, format sign/degree/minute and assign the house. -/
def planet_entry (o : SweOracle) (jd_ut lat lon : ℚ) (houses ascmc : List ℚ)
    (body : ℤ) : PlanetOut :=
  let res := o.calc_ut jd_ut body
  let ecl_lon := normalize_deg res.1
  let speed_lon := res.2
  let retro : Bool := decide (speed_lon < 0)
  let sp := zodiac_sign_and_pos ecl_lon
  let dm := round_to_arcminute sp.2
  let house_num := house_for_longitude o jd_ut lat lon ecl_lon houses ascmc
  ⟨sp.1, dm.1, dm.2, ecl_lon, retro, house_num⟩

/-- The `planets_out` mapping keyed by body name, built by iterating `PLANETS`. -/
def planets_out (o : SweOracle) (jd_ut lat lon : ℚ) (houses ascmc : List ℚ) :
    List (String × PlanetOut) :=
  PLANETS.map fun nb => (nb.1, planet_entry o jd_ut lat lon houses ascmc nb.2)

/-- Claim C9: every successful chart contains each of the 11 tracked bodies
exactly once as a key of the planets mapping (the key list is exactly the 11
body names, with no duplicates), and the retrograde flag of each body is
true iff
its reported daily longitude speed is strictly negative. -/
theorem planets_out_spec (o : SweOracle) (jd_ut lat lon : ℚ)
    (houses ascmc : List ℚ) :
    (planets_out o jd_ut lat lon houses ascmc).map Prod.fst =
      ["Sun", "Moon", "Mercury", "Venus", "Mars", "Jupiter", "Saturn",
       "Uranus", "Neptune", "Pluto", "Node(M)"] ∧
    ((planets_out o jd_ut lat lon houses ascmc).map Prod.fst).Nodup ∧
    (planets_out o jd_ut lat lon houses ascmc).length = 11 ∧
    (∀ name body, (name, body) ∈ PLANETS →
      ∃ p, (name, p) ∈ planets_out o jd_ut lat lon houses ascmc ∧
        (p.retrograde = true ↔ (o.calc_ut jd_ut body).2 < 0)) := by
  have hkeys : (planets_out o jd_ut lat lon houses ascmc).map Prod.fst =
      ["Sun", "Moon", "Mercury", "Venus", "Mars", "Jupiter", "Saturn",
       "Uranus", "Neptune", "Pluto", "Node(M)"] := rfl
  refine ⟨hkeys, ?_, rfl, ?_⟩
  · rw [hkeys]
    decide
  · intro name body hmem
    refine ⟨planet_entry o jd_ut lat lon houses ascmc body, ?_, ?_⟩
    · rw [planets_out]
      exact List.mem_map.mpr ⟨(name, body), hmem, rfl⟩
    · exact decide_eq_true_iff

/-- A trivial concrete oracle for witnessing: every body has longitude 0 and
daily speed -1. -/
def constOracle : SweOracle :=
  ⟨fun _ _ _ _ => 0, fun _ => 0, fun _ _ => (0, -1)⟩

/-- Witness for C9: the Sun appears in the mapping of a concrete chart and is
flagged retrograde under an oracle reporting speed -1. -/
theorem planets_out_spec_witness :
    ("Sun", (0 : ℤ)) ∈ PLANETS ∧
    ∃ p, ("Sun", p) ∈ planets_out constOracle 0 0 0 [] [] ∧
      (p.retrograde = true ↔ (constOracle.calc_ut 0 0).2 < 0) :=
  ⟨by simp [PLANETS],
   (planets_out_spec constOracle 0 0 0 [] []).2.2.2 "Sun" 0 (by simp [PLANETS])⟩

end BirthChartAPI
